import Mathlib

/-!
Shallow embedding of the LinkedIn-Scraper extraction pipeline (`src/utils.py`).

Conventions used throughout:
* Python strings are Lean `String`; `str.strip()` is `pyStrip`,
  `str.lower()` is `pyLower`, `needle in hay` is `strContains hay needle`.
* A parsed HTML document (a BeautifulSoup object) is modelled abstractly by a
  `Soup` record holding the result of each selector query the source performs;
  an element is its `.text` content.  The live Selenium DOM is modelled the
  same way by `SelEnv`, whose `Option` fields are `none` exactly when the
  corresponding `find_element` / `WebDriverWait` call raises.
* An HTTP response is its status code together with its body text.
* Python dictionaries built by the extractors are insertion-ordered
  association lists (`ProfileRecord`); every key is assigned at most once in
  the source, so association-list lookup agrees with dict lookup.
* Raising an exception is returning `Except.error msg`; a `try/except` block
  is a `match` on the `Except` value.
-/

/-- Python substring membership `need in hay` on explicit character lists:
true iff `need` occurs contiguously inside `hay`. -/
def listContains (need : List Char) : List Char → Bool
  | [] => need.isEmpty
  | c :: t => need.isPrefixOf (c :: t) || listContains need t

/-- Python `need in hay` for strings. -/
def strContains (hay need : String) : Bool :=
  listContains need.data hay.data

/-- Drop leading whitespace from a character list. -/
def dropLeadWs : List Char → List Char
  | [] => []
  | c :: cs => if c.isWhitespace then dropLeadWs cs else c :: cs

/-- Python `str.strip()`: remove leading and trailing whitespace (trailing
whitespace is removed by stripping the reversed list). -/
def pyStrip (s : String) : String :=
  String.mk (dropLeadWs (dropLeadWs s.data.reverse).reverse)

/-- Python `str.lower()`: lowercase each character (the indicator scan uses
only ASCII; `Char.toLower` agrees with Python there). -/
def pyLower (s : String) : String :=
  String.mk (s.data.map Char.toLower)

/-- A value stored in the profile dictionary: Python `str` or `list[str]`. -/
inductive FieldValue where
  | str (s : String)
  | list (l : List String)
deriving DecidableEq

/-- The profile dictionary: insertion-ordered key/value pairs. -/
abbrev ProfileRecord := List (String × FieldValue)

/-- Dictionary lookup on a `ProfileRecord`. -/
def recLookup (k : String) : ProfileRecord → Option FieldValue
  | [] => none
  | (k2, v) :: rest => if k2 = k then some v else recLookup k rest

/-- An HTML element, reduced to its `.text` content. -/
structure Elem where
  text : String
deriving DecidableEq

/-- One experience item of the static extractor (`utils.py` lines 140-146):
`role` is the result of `item.find(['h3','span'], class_=['title','t-bold'])`,
`company` of `item.find(['p','span'], class_=['company','t-normal'])`;
`none` models the find returning `None`. -/
structure ExpItem where
  role : Option Elem
  company : Option Elem
deriving DecidableEq

/-- The parse of a fetched page, abstracted to the queries the static
extractor performs (`utils.py` lines 467-501 and 132-150). -/
structure Soup where
  /-- `soup.get_text()` -/
  pageText : String
  /-- `soup.select_one('h1.text-heading-xlarge')` -/
  selectHeadingXlarge : Option Elem
  /-- `soup.select_one('h1.top-card-layout__title')` -/
  selectTopCardTitle : Option Elem
  /-- `soup.select_one('h1.basic-info__name')` -/
  selectBasicInfoName : Option Elem
  /-- `soup.select_one('div.text-body-medium, h2.top-card-layout__headline, div.basic-info__headline')` -/
  selectHeadline : Option Elem
  /-- `soup.select_one('div.about-section, div.summary-section')` -/
  selectAbout : Option Elem
  /-- the experience section (`find('section', id='experience-section') or
  find('div', class_='experience-section')`) with its `find_all` items;
  `none` when neither lookup finds a section. -/
  experienceSection : Option (List ExpItem)
deriving DecidableEq

/-- An HTTP response: `response.status_code` and `response.text`. -/
structure Response where
  statusCode : Nat
  text : String
deriving DecidableEq

/-- One experience item seen by the Selenium extractor (`utils.py` lines
282-298): each field is the stripped text of the corresponding
`find_element`, `none` when that call raises. -/
structure SelExpItem where
  role : Option String
  company : Option String
deriving DecidableEq

/-- One education item (`utils.py` lines 317-324). -/
structure SelEduItem where
  school : Option String
  degree : Option String
deriving DecidableEq

/-- One language item (`utils.py` lines 388-402): the proficiency element is
optional and defaults to a fixed placeholder. -/
structure SelLangItem where
  language : Option String
  proficiency : Option String
deriving DecidableEq

/-- The environment a Selenium run observes.  `launch` collects every
unguarded step before field extraction (driver construction, `driver.get`,
the body-presence wait): `Except.error e` means one of them raised with
message `e`.  `screenshot` models the unguarded `driver.save_screenshot`
after field extraction.  Each field query is `none` exactly when the
corresponding guarded `find_element`/`WebDriverWait` raised (timeout or
absence), otherwise the element text(s) found. -/
structure SelEnv where
  launch : Except String Unit
  nameElem : Option String
  headlineElem : Option String
  aboutElem : Option String
  expSection : Option (List SelExpItem)
  eduSection : Option (List SelEduItem)
  skillsSection : Option (List (Option String))
  langSection : Option (List SelLangItem)
  screenshot : Except String Unit

/-- The experience loop of the Selenium extractor (`utils.py` lines 282-298):
an item contributes `"<role> at <company>"` only when both finds succeed;
a raise inside the item's `try` skips the item. -/
def selExpLoop : List SelExpItem → List String
  | [] => []
  | i :: rest =>
    match i.role, i.company with
    | some r, some c => (pyStrip r ++ " at " ++ pyStrip c) :: selExpLoop rest
    | _, _ => selExpLoop rest

/-- The education loop (`utils.py` lines 317-324): both school and degree
must be found, otherwise the item is skipped. -/
def selEduLoop : List SelEduItem → List String
  | [] => []
  | i :: rest =>
    match i.school, i.degree with
    | some s, some d => (pyStrip s ++ " - " ++ pyStrip d) :: selEduLoop rest
    | _, _ => selEduLoop rest

/-- The skills loop (`utils.py` lines 355-362): a skill is appended only when
its stripped text is non-empty; a raise reading the item skips it. -/
def selSkillLoop : List (Option String) → List String
  | [] => []
  | o :: rest =>
    match o with
    | some t => if pyStrip t ≠ "" then pyStrip t :: selSkillLoop rest else selSkillLoop rest
    | none => selSkillLoop rest

/-- The languages loop (`utils.py` lines 388-402): the language element is
required, the proficiency element defaults to a placeholder. -/
def selLangLoop : List SelLangItem → List String
  | [] => []
  | i :: rest =>
    match i.language with
    | some l =>
      (pyStrip l ++ " - " ++
        (match i.proficiency with
          | some p => pyStrip p
          | none => "Proficiency not specified")) :: selLangLoop rest
    | none => selLangLoop rest

/-- The degraded record returned by the outer `except` handler of
`get_profile_data_with_selenium` (`utils.py` lines 417-425). -/
def degradedRecord (e : String) : ProfileRecord :=
  [("name", .str "Error retrieving profile"),
   ("headline", .str ("Error: " ++ e)),
   ("experience", .list ["Unable to retrieve experience information"]),
   ("education", .list ["Unable to retrieve education information"]),
   ("skills", .list ["Unable to retrieve skills information"])]

/-- Python's `xs if xs else [placeholder]` idiom used for the selenium
experience/education/skills fields (`utils.py` lines 300-307, 326, 364-371). -/
def listOrPlaceholder (es : List String) (ph : String) : List String :=
  if es.isEmpty then [ph] else es

/-- The selenium `name` value (`utils.py` lines 219-230): stripped element
text, or `"Not found"` when the wait raised. -/
def selNameValue (env : SelEnv) : String :=
  match env.nameElem with
  | some t => pyStrip t
  | none => "Not found"

/-- The selenium `headline` value (`utils.py` lines 233-244). -/
def selHeadlineValue (env : SelEnv) : String :=
  match env.headlineElem with
  | some t => pyStrip t
  | none => "Not found"

/-- The selenium `about` value (`utils.py` lines 247-264); the optional
"Show more" click has no effect on the model. -/
def selAboutValue (env : SelEnv) : String :=
  match env.aboutElem with
  | some t => pyStrip t
  | none => "Not found"

/-- The selenium `experience` value (`utils.py` lines 267-307). -/
def selExpValue (env : SelEnv) : List String :=
  match env.expSection with
  | some items => listOrPlaceholder (selExpLoop items) "No experience information found"
  | none => ["No experience information found"]

/-- The selenium `education` value (`utils.py` lines 310-329). -/
def selEduValue (env : SelEnv) : List String :=
  match env.eduSection with
  | some items => listOrPlaceholder (selEduLoop items) "No education information found"
  | none => ["No education information found"]

/-- The selenium `skills` value (`utils.py` lines 332-371). -/
def selSkillsValue (env : SelEnv) : List String :=
  match env.skillsSection with
  | some items => listOrPlaceholder (selSkillLoop items) "No skills information found"
  | none => ["No skills information found"]

/-- The selenium `languages` value (`utils.py` lines 374-409): the key is
only assigned when the section was found and the loop collected a non-empty
list (`if languages:`); `none` means the key is absent. -/
def selLangValue (env : SelEnv) : Option (List String) :=
  match env.langSection with
  | some items =>
    let ls := selLangLoop items
    if ls.isEmpty then none else some ls
  | none => none

/-- The dictionary a successful selenium run builds, in assignment order
(`utils.py` lines 216-415). -/
def seleniumRecord (env : SelEnv) : ProfileRecord :=
  [("name", .str (selNameValue env)),
   ("headline", .str (selHeadlineValue env)),
   ("about", .str (selAboutValue env)),
   ("experience", .list (selExpValue env)),
   ("education", .list (selEduValue env)),
   ("skills", .list (selSkillsValue env))]
  ++ (match selLangValue env with
      | some ls => [("languages", .list ls)]
      | none => [])

/-- `get_profile_data_with_selenium` (`utils.py` lines 178-430).  Every field
block has its own `try/except` that substitutes a placeholder, so only the
unguarded steps (`launch`, and the `screenshot` taken after the fields)
reach the outer handler, which returns `degradedRecord` instead of
re-raising: the function never raises. -/
def get_profile_data_with_selenium (env : SelEnv) : ProfileRecord :=
  match env.launch with
  | .error e => degradedRecord e
  | .ok _ =>
    match env.screenshot with
    | .error e => degradedRecord e
    | .ok _ => seleniumRecord env

/-- The fixed block-indicator list (`utils.py` line 470). -/
def error_indicators : List String := ["captcha", "please verify", "interrupted", "unavailable"]

/-- The indicator scan loop (`utils.py` lines 472-475): the first indicator
contained in the (already lowercased) page text, if any. -/
def findIndicatorLoop (pageText : String) : List String → Option String
  | [] => none
  | i :: rest => if strContains pageText i then some i else findIndicatorLoop pageText rest

/-- `for indicator in error_indicators: if indicator in page_text: raise ...`
applied to `page_text = soup.get_text().lower()`. -/
def findIndicator (soup : Soup) : Option String :=
  findIndicatorLoop (pyLower soup.pageText) error_indicators

/-- The name-selector loop (`utils.py` lines 480-488): the selectors are
tried in list order and the loop breaks at the first element whose stripped
text is non-empty. -/
def extractNameLoop : List (Option Elem) → Option String
  | [] => none
  | o :: rest =>
    match o with
    | some e => if pyStrip e.text ≠ "" then some (pyStrip e.text) else extractNameLoop rest
    | none => extractNameLoop rest

/-- The name-selector query results of a document, in the priority order of
the source's selector list. -/
def nameCandidates (soup : Soup) : List (Option Elem) :=
  [soup.selectHeadingXlarge, soup.selectTopCardTitle, soup.selectBasicInfoName]

/-- The experience loop of the first (shadowed) `extract_profile_data`
(`utils.py` lines 140-147): an item contributes `"<role> at <company>"`
only when both the role and the company find succeed. -/
def expLoop : List ExpItem → List String
  | [] => []
  | i :: rest =>
    match i.role, i.company with
    | some r, some c => (pyStrip r.text ++ " at " ++ pyStrip c.text) :: expLoop rest
    | _, _ => expLoop rest

/-- The gate checks shared by both definitions of `extract_profile_data`
(`utils.py` lines 446-475): anti-bot status 999 routes to Selenium,
`raise_for_status` raises on a 4xx/5xx status (its message text is produced
inside the requests library; modelled here), short bodies are rejected, then
the block-indicator scan runs.  Returns the fall-through continuation's
value when every gate passes. -/
def extractGates (resp : Response) (soup : Soup) (senv : SelEnv)
    (body : Except String ProfileRecord) : Except String ProfileRecord :=
  if resp.statusCode = 999 then .ok (get_profile_data_with_selenium senv)
  else if 400 ≤ resp.statusCode ∧ resp.statusCode < 600 then
    .error ("Failed to access profile: HTTP error " ++ toString resp.statusCode)
  else if resp.text.length < 1000 then .error "Invalid response content"
  else
    match findIndicator soup with
    | some indicator => .error ("Access restricted: " ++ indicator ++ " check required")
    | none => body

/-- The field-extraction tail shared by both definitions: name (selector
loop), headline, about, then optionally the experience list (`expSection`
is `none` for the second definition, which dropped that block), failing if
the dictionary stayed empty (`utils.py` lines 477-509 and 107-157). -/
def extractFields (soup : Soup) (expSection : Option (List ExpItem)) :
    Except String ProfileRecord :=
  let d1 : ProfileRecord := match extractNameLoop (nameCandidates soup) with
    | some n => [("name", .str n)]
    | none => []
  let d2 := match soup.selectHeadline with
    | some e => d1 ++ [("headline", .str (pyStrip e.text))]
    | none => d1
  let d3 := match soup.selectAbout with
    | some e => d2 ++ [("about", .str (pyStrip e.text))]
    | none => d2
  let d4 := match expSection with
    | some items =>
      let es := expLoop items
      if es.isEmpty then d3 else d3 ++ [("experience", .list es)]
    | none => d3
  if d4.isEmpty then .error "Failed to extract any profile data"
  else .ok d4

/-- The first definition of `extract_profile_data` (`utils.py` lines
62-164), silently shadowed by the second one: it extracts name, headline,
about and the experience section. -/
def extract_profile_data_v1 (resp : Response) (soup : Soup) (senv : SelEnv) :
    Except String ProfileRecord :=
  extractGates resp soup senv (extractFields soup soup.experienceSection)

/-- The second, shadowing definition of `extract_profile_data` (`utils.py`
lines 432-516) — the one the program actually runs.  Identical gates and
name/headline/about extraction, but the experience block was dropped (only
its comment remains at line 502). -/
def extract_profile_data (resp : Response) (soup : Soup) (senv : SelEnv) :
    Except String ProfileRecord :=
  extractGates resp soup senv (extractFields soup none)

/-- A character of the slug class `[a-zA-Z0-9\-]` of the URL pattern
(`utils.py` line 19); the Python class is ASCII-only, as are Lean's
`Char.isAlpha`/`Char.isDigit`. -/
def slugChar (c : Char) : Bool :=
  c.isAlpha || c.isDigit || c = '-'

/-- Consume an exact literal from the front of the input, returning the
rest; `none` when the input does not start with the literal.  Used for the
fixed parts of the URL regex. -/
def stripLit : List Char → List Char → Option (List Char)
  | [], cs => some cs
  | _ :: _, [] => none
  | p :: ps, c :: cs => if c = p then stripLit ps cs else none

/-- Drop the maximal (greedy) run of slug characters: `[a-zA-Z0-9\-]+`
consumes as much as it can, and since `/` and end-of-input are outside the
class, the regex never needs to backtrack into it. -/
def dropSlug : List Char → List Char
  | [] => []
  | c :: cs => if slugChar c then dropSlug cs else c :: cs

/-- The maximal run of slug characters at the front. -/
def takeSlug : List Char → List Char
  | [] => []
  | c :: cs => if slugChar c then c :: takeSlug cs else []

/-- The optional trailing slash `\/?` (greedy, and safe to commit to:
whatever follows must be the end anchor, which `/` never satisfies). -/
def afterSlash : List Char → List Char
  | '/' :: r => r
  | r => r

/-- Match `[a-zA-Z0-9\-]+\/?` at the front: at least one slug character,
the greedy rest of the run, then an optional `/`.  Returns the unconsumed
remainder. -/
def matchTail (cs : List Char) : Option (List Char) :=
  match cs with
  | c :: rest => if slugChar c then some (afterSlash (dropSlug rest)) else none
  | [] => none

/-- The optional group `s?` of `https?`: consume a leading `s` when present
(greedy, and safe to commit to: what must follow starts with `:`). -/
def sBranch : List Char → List Char
  | c :: r => if c = 's' then r else c :: r
  | [] => []

/-- The optional group `(www\.)?`: consume a leading `www.` when present
(greedy, and safe to commit to: what must follow starts with `l`). -/
def wwwBranch (cs : List Char) : List Char :=
  match stripLit "www.".data cs with
  | some r => r
  | none => cs

/-- Match `https?:\/\/(www\.)?linkedin\.com\/in\/[a-zA-Z0-9\-]+\/?` at the
front of the input (the whole pattern of `utils.py` line 19 minus its end
anchor), returning the unconsumed remainder. -/
def matchLinkedinCore (cs : List Char) : Option (List Char) :=
  (stripLit "http".data cs).bind fun cs1 =>
    (stripLit "://".data (sBranch cs1)).bind fun cs3 =>
      (stripLit "linkedin.com/in/".data (wwwBranch cs3)).bind matchTail

/-- `is_valid_linkedin_url` (`utils.py` lines 17-20):
`bool(re.match(r'^https?:\/\/(www\.)?linkedin\.com\/in\/[a-zA-Z0-9\-]+\/?$', url))`.
In Python, `$` (without `re.MULTILINE`) matches at the end of the string or
just before a newline at the end of the string, so the remainder after the
core pattern may be empty or a single trailing `'\n'`. -/
def is_valid_linkedin_url (url : String) : Bool :=
  match matchLinkedinCore url.data with
  | some rest => rest.isEmpty || rest = ['\n']
  | none => false

/-- Modelled from the spec's words (for comparison with the source): a
string matches `(http|https)://(www.)?linkedin.com/in/<slug>(/)?` anchored
at BOTH ends, i.e. the core pattern must consume the entire input. -/
def matchesSpecUrlPattern (url : String) : Bool :=
  match matchLinkedinCore url.data with
  | some rest => rest.isEmpty
  | none => false

/-- The attempts the orchestrator makes, for stating reachability. -/
inductive Attempt where
  | browser
  | httpFetch
deriving DecidableEq

/-- The orchestrator logic of `scrape_linkedin_profile` (`utils.py` lines
518-535) over the outcomes of its two attempts: invalid URLs fail before
any attempt; a browser success is returned; on a browser failure the HTTP
fallback runs once, and if it also fails the final error wraps only the
browser failure message `e` (the fallback message is merely logged).
The second component records which attempts were made. -/
def scrape_orchestrate (url : String) (browserResult : Except String ProfileRecord)
    (fallbackResult : Except String ProfileRecord) :
    Except String ProfileRecord × List Attempt :=
  if is_valid_linkedin_url url = false then (.error "Invalid LinkedIn profile URL", [])
  else
    match browserResult with
    | .ok r => (.ok r, [.browser])
    | .error e =>
      match fallbackResult with
      | .ok r => (.ok r, [.browser, .httpFetch])
      | .error _ => (.error ("Failed to extract profile data: " ++ e), [.browser, .httpFetch])

/-- `scrape_linkedin_profile` (`utils.py` lines 518-535).  The browser
attempt is `get_profile_data_with_selenium`, whose outer handler makes it
total, so its outcome is always `Except.ok`; the fallback attempt is the
(shadowing) `extract_profile_data`. -/
def scrape_linkedin_profile (url : String) (senv : SelEnv) (resp : Response)
    (soup : Soup) : Except String ProfileRecord × List Attempt :=
  scrape_orchestrate url (.ok (get_profile_data_with_selenium senv))
    (extract_profile_data resp soup senv)

/-- The gates of `extract_profile_data` fall through to the field-extraction
body when the status is acceptable, the body is long enough and the
indicator scan finds nothing. -/
theorem extractGates_eq_body (resp : Response) (soup : Soup) (senv : SelEnv)
    (body : Except String ProfileRecord)
    (h999 : resp.statusCode ≠ 999) (hok : resp.statusCode < 400)
    (hlen : 1000 ≤ resp.text.length) (hind : findIndicator soup = none) :
    extractGates resp soup senv body = body := by
  unfold extractGates
  rw [if_neg h999, if_neg (by omega : ¬(400 ≤ resp.statusCode ∧ resp.statusCode < 600)),
    if_neg (by omega : ¬resp.text.length < 1000), hind]

/-- C4: when the HTTP fetch of a profile URL returns status code 999, the
static-extractor path is never entered: `extract_profile_data` returns the
browser-driven extractor's result, for every fetched document and browser
environment, and raises no anti-bot failure. -/
theorem status999_routes_to_selenium (resp : Response) (soup : Soup) (senv : SelEnv)
    (h : resp.statusCode = 999) :
    extract_profile_data resp soup senv = .ok (get_profile_data_with_selenium senv) := by
  unfold extract_profile_data extractGates
  rw [if_pos h]

/-- Witness for C4 at a concrete response and environment. -/
theorem status999_routes_to_selenium_witness :
    extract_profile_data ⟨999, ""⟩ ⟨"", none, none, none, none, none, none⟩
        ⟨.ok (), none, none, none, none, none, none, none, .ok ()⟩
      = .ok (get_profile_data_with_selenium
          ⟨.ok (), none, none, none, none, none, none, none, .ok ()⟩) :=
  status999_routes_to_selenium _ _ _ rfl

/-- C5: every fetched body shorter than 1000 characters is rejected with the
invalid-content failure, whatever the parsed document contains (the `soup`
is universally quantified, so no selector match can prevent the failure). -/
theorem short_body_rejected (resp : Response) (soup : Soup) (senv : SelEnv)
    (h999 : resp.statusCode ≠ 999) (hok : resp.statusCode < 400)
    (hshort : resp.text.length < 1000) :
    extract_profile_data resp soup senv = .error "Invalid response content" := by
  unfold extract_profile_data extractGates
  rw [if_neg h999, if_neg (by omega : ¬(400 ≤ resp.statusCode ∧ resp.statusCode < 600)),
    if_pos hshort]

/-- Witness for C5: a 200-status response whose body is 5 characters long is
rejected even though the document has a matching name selector. -/
theorem short_body_rejected_witness :
    extract_profile_data ⟨200, "short"⟩
        ⟨"short", some ⟨"Jane Doe"⟩, none, none, none, none, none⟩
        ⟨.ok (), none, none, none, none, none, none, none, .ok ()⟩
      = .error "Invalid response content" :=
  short_body_rejected ⟨200, "short"⟩
    ⟨"short", some ⟨"Jane Doe"⟩, none, none, none, none, none⟩
    ⟨.ok (), none, none, none, none, none, none, none, .ok ()⟩
    (by decide) (by decide) (by decide)

/-- C6: if the lowercased page text contains one of the block indicators,
the static extractor fails with the access-restricted message naming an
indicator that is contained in the page text (the first such in list
order), and no record is produced — whatever the field selectors hold. -/
theorem block_indicator_rejects (resp : Response) (soup : Soup) (senv : SelEnv)
    (ind : String)
    (h999 : resp.statusCode ≠ 999) (hok : resp.statusCode < 400)
    (hlen : 1000 ≤ resp.text.length)
    (hmem : ind ∈ error_indicators)
    (hin : strContains (pyLower soup.pageText) ind = true) :
    ∃ j, j ∈ error_indicators ∧ strContains (pyLower soup.pageText) j = true ∧
      extract_profile_data resp soup senv
        = .error ("Access restricted: " ++ j ++ " check required") := by
  have hgate : ∀ i, findIndicator soup = some i →
      extract_profile_data resp soup senv
        = .error ("Access restricted: " ++ i ++ " check required") := by
    intro i hi
    unfold extract_profile_data extractGates
    rw [if_neg h999, if_neg (by omega : ¬(400 ≤ resp.statusCode ∧ resp.statusCode < 600)),
      if_neg (by omega : ¬resp.text.length < 1000), hi]
  by_cases h1 : strContains (pyLower soup.pageText) "captcha" = true
  · exact ⟨"captcha", by simp [error_indicators], h1,
      hgate _ (by simp [findIndicator, findIndicatorLoop, error_indicators, h1])⟩
  by_cases h2 : strContains (pyLower soup.pageText) "please verify" = true
  · exact ⟨"please verify", by simp [error_indicators], h2,
      hgate _ (by simp [findIndicator, findIndicatorLoop, error_indicators, h1, h2])⟩
  by_cases h3 : strContains (pyLower soup.pageText) "interrupted" = true
  · exact ⟨"interrupted", by simp [error_indicators], h3,
      hgate _ (by simp [findIndicator, findIndicatorLoop, error_indicators, h1, h2, h3])⟩
  by_cases h4 : strContains (pyLower soup.pageText) "unavailable" = true
  · exact ⟨"unavailable", by simp [error_indicators], h4,
      hgate _ (by simp [findIndicator, findIndicatorLoop, error_indicators, h1, h2, h3, h4])⟩
  · simp [error_indicators] at hmem
    rcases hmem with rfl | rfl | rfl | rfl <;> simp_all

set_option maxRecDepth 8192 in
/-- Witness for C6: a long page whose text contains "Please Verify" fails
with the access-restricted message, although a name selector matches. -/
theorem block_indicator_rejects_witness :
    ∃ j, j ∈ error_indicators ∧
      strContains (pyLower "a Please Verify banner") j = true ∧
      extract_profile_data ⟨200, String.mk (List.replicate 1000 'z')⟩
          ⟨"a Please Verify banner", some ⟨"Jane Doe"⟩, none, none, none, none, none⟩
          ⟨.ok (), none, none, none, none, none, none, none, .ok ()⟩
        = .error ("Access restricted: " ++ j ++ " check required") :=
  block_indicator_rejects ⟨200, String.mk (List.replicate 1000 'z')⟩
    ⟨"a Please Verify banner", some ⟨"Jane Doe"⟩, none, none, none, none, none⟩
    ⟨.ok (), none, none, none, none, none, none, none, .ok ()⟩
    "please verify" (by decide) (by decide)
    (by decide) (by decide) (by decide)

/-- C7: the name selectors are tried in priority order with a short-circuit:
whenever `h1.text-heading-xlarge` yields an element with non-empty stripped
text, the loop stops there regardless of the later selectors, and — when
the page passes the gates — the returned record's `name` equals that
element's stripped text. -/
theorem name_selector_priority (resp : Response) (soup : Soup) (senv : SelEnv) (e : Elem)
    (h999 : resp.statusCode ≠ 999) (hok : resp.statusCode < 400)
    (hlen : 1000 ≤ resp.text.length) (hind : findIndicator soup = none)
    (hsel : soup.selectHeadingXlarge = some e) (hne : pyStrip e.text ≠ "") :
    extractNameLoop (nameCandidates soup) = some (pyStrip e.text) ∧
    ∃ r, extract_profile_data resp soup senv = .ok r ∧
      recLookup "name" r = some (.str (pyStrip e.text)) := by
  have hname : extractNameLoop (nameCandidates soup) = some (pyStrip e.text) := by
    simp [nameCandidates, extractNameLoop, hsel, hne]
  refine ⟨hname, ?_⟩
  unfold extract_profile_data
  rw [extractGates_eq_body _ _ _ _ h999 hok hlen hind]
  unfold extractFields
  rw [hname]
  cases hh : soup.selectHeadline <;> cases ha : soup.selectAbout <;> exact ⟨_, rfl, rfl⟩

set_option maxRecDepth 8192 in
/-- Witness for C7 at a concrete page: the first selector's text wins. -/
theorem name_selector_priority_witness :
    extractNameLoop (nameCandidates
        ⟨"profile", some ⟨" Jane Doe "⟩, some ⟨"Wrong"⟩, none, none, none, none⟩)
      = some (pyStrip " Jane Doe ") ∧
    ∃ r, extract_profile_data ⟨200, String.mk (List.replicate 1000 'z')⟩
        ⟨"profile", some ⟨" Jane Doe "⟩, some ⟨"Wrong"⟩, none, none, none, none⟩
        ⟨.ok (), none, none, none, none, none, none, none, .ok ()⟩ = .ok r ∧
      recLookup "name" r = some (.str (pyStrip " Jane Doe ")) :=
  name_selector_priority ⟨200, String.mk (List.replicate 1000 'z')⟩
    ⟨"profile", some ⟨" Jane Doe "⟩, some ⟨"Wrong"⟩, none, none, none, none⟩
    ⟨.ok (), none, none, none, none, none, none, none, .ok ()⟩
    ⟨" Jane Doe "⟩ (by decide) (by decide)
    (by decide) (by decide) rfl (by decide)

set_option maxRecDepth 4096 in
/-- C1 counterexample: when both attempts fail, the terminal error of the
orchestrator contains only the browser failure message — the fallback
failure message does not occur in it, so the surfaced message does not
combine both underlying failure messages. -/
theorem combined_error_cex :
    scrape_orchestrate "https://www.linkedin.com/in/jane-doe"
        (.error "selenium boom") (.error "fallback boom")
      = (.error "Failed to extract profile data: selenium boom",
         [.browser, .httpFetch]) ∧
    strContains "Failed to extract profile data: selenium boom" "fallback boom" = false ∧
    strContains "Failed to extract profile data: selenium boom" "selenium boom" = true :=
  ⟨rfl, by decide, by decide⟩

/-- C1 (amended): if both the browser attempt and the HTTP fallback fail on
a validated URL, the orchestrator surfaces the single terminal error
`"Failed to extract profile data: <browser failure message>"`; the fallback
failure message is only logged, not included. -/
theorem combined_error_wraps_browser_message (url eBrowser eFallback : String)
    (h : is_valid_linkedin_url url = true) :
    scrape_orchestrate url (.error eBrowser) (.error eFallback)
      = (.error ("Failed to extract profile data: " ++ eBrowser),
         [.browser, .httpFetch]) := by
  unfold scrape_orchestrate
  rw [if_neg (by simp [h] : ¬ (is_valid_linkedin_url url = false))]

/-- Witness for the amended C1 at concrete failure messages. -/
theorem combined_error_wraps_browser_message_witness :
    scrape_orchestrate "https://www.linkedin.com/in/jane-doe"
        (.error "a") (.error "b")
      = (.error ("Failed to extract profile data: " ++ "a"),
         [.browser, .httpFetch]) :=
  combined_error_wraps_browser_message "https://www.linkedin.com/in/jane-doe" "a" "b"
    (by decide)

/-- C8: when the browser run reaches field extraction and cannot locate the
skills section, the returned record's `skills` value is exactly the
one-element placeholder list; the `skills` key is present in the result for
EVERY environment (never omitted); and a scalar field that cannot be
located (here `name`) is set to the placeholder string `"Not found"`. -/
theorem selenium_skills_placeholder (env : SelEnv)
    (hl : env.launch = .ok ()) (hs : env.screenshot = .ok ())
    (hskills : env.skillsSection = none) (hname : env.nameElem = none) :
    recLookup "skills" (get_profile_data_with_selenium env)
      = some (.list ["No skills information found"]) ∧
    recLookup "name" (get_profile_data_with_selenium env) = some (.str "Not found") ∧
    ∀ env2 : SelEnv,
      (recLookup "skills" (get_profile_data_with_selenium env2)).isSome = true := by
  have hrec : get_profile_data_with_selenium env = seleniumRecord env := by
    unfold get_profile_data_with_selenium
    rw [hl, hs]
  refine ⟨?_, ?_, ?_⟩
  · rw [hrec]
    have hskill : recLookup "skills" (seleniumRecord env)
        = some (.list (selSkillsValue env)) := rfl
    rw [hskill]
    unfold selSkillsValue
    rw [hskills]
  · rw [hrec]
    have hn : recLookup "name" (seleniumRecord env)
        = some (.str (selNameValue env)) := rfl
    rw [hn]
    unfold selNameValue
    rw [hname]
  · intro env2
    obtain ⟨l, nm, hd, ab, ex, ed, sk, lg, scr⟩ := env2
    cases l with
    | error e => rfl
    | ok u =>
      cases scr with
      | error e2 => rfl
      | ok u2 => rfl

/-- Witness for C8 at a concrete environment whose skills wait and name
wait both timed out. -/
theorem selenium_skills_placeholder_witness :
    recLookup "skills" (get_profile_data_with_selenium
        ⟨.ok (), none, some " Dev ", none, none, none, none, none, .ok ()⟩)
      = some (.list ["No skills information found"]) ∧
    recLookup "name" (get_profile_data_with_selenium
        ⟨.ok (), none, some " Dev ", none, none, none, none, none, .ok ()⟩)
      = some (.str "Not found") ∧
    ∀ env2 : SelEnv,
      (recLookup "skills" (get_profile_data_with_selenium env2)).isSome = true :=
  selenium_skills_placeholder
    ⟨.ok (), none, some " Dev ", none, none, none, none, none, .ok ()⟩
    rfl rfl rfl rfl

/-- C10: the browser-driven extractor is total — on a launch or navigation
failure it returns the degraded record, which carries the keys `name`,
`headline`, `experience`, `education`, `skills` with explicit error
placeholders — and consequently, for every URL that passes validation, the
orchestrator returns the browser result and the HTTP-fallback branch is
never taken (the attempt trace contains no fetch). -/
theorem selenium_never_raises_fallback_unreachable :
    (∀ (env : SelEnv) (e : String), env.launch = .error e →
      get_profile_data_with_selenium env = degradedRecord e ∧
      recLookup "name" (degradedRecord e) = some (.str "Error retrieving profile") ∧
      recLookup "headline" (degradedRecord e) = some (.str ("Error: " ++ e)) ∧
      recLookup "experience" (degradedRecord e)
        = some (.list ["Unable to retrieve experience information"]) ∧
      recLookup "education" (degradedRecord e)
        = some (.list ["Unable to retrieve education information"]) ∧
      recLookup "skills" (degradedRecord e)
        = some (.list ["Unable to retrieve skills information"])) ∧
    (∀ (url : String) (senv : SelEnv) (resp : Response) (soup : Soup),
      is_valid_linkedin_url url = true →
      scrape_linkedin_profile url senv resp soup
        = (.ok (get_profile_data_with_selenium senv), [Attempt.browser])) := by
  constructor
  · intro env e h
    refine ⟨?_, rfl, rfl, rfl, rfl, rfl⟩
    unfold get_profile_data_with_selenium
    rw [h]
  · intro url senv resp soup h
    unfold scrape_linkedin_profile scrape_orchestrate
    rw [if_neg (by simp [h] : ¬ (is_valid_linkedin_url url = false))]

/-- Witness for C10: a concrete failed launch yields the degraded record,
and a concrete valid URL returns the browser result with no fetch attempt. -/
theorem selenium_never_raises_fallback_unreachable_witness :
    get_profile_data_with_selenium
        ⟨.error "driver failed", none, none, none, none, none, none, none, .ok ()⟩
      = degradedRecord "driver failed" ∧
    scrape_linkedin_profile "https://www.linkedin.com/in/jane-doe"
        ⟨.ok (), none, none, none, none, none, none, none, .ok ()⟩
        ⟨200, ""⟩ ⟨"", none, none, none, none, none, none⟩
      = (.ok (get_profile_data_with_selenium
          ⟨.ok (), none, none, none, none, none, none, none, .ok ()⟩),
         [Attempt.browser]) :=
  ⟨(selenium_never_raises_fallback_unreachable.1
      ⟨.error "driver failed", none, none, none, none, none, none, none, .ok ()⟩
      "driver failed" rfl).1,
   selenium_never_raises_fallback_unreachable.2 "https://www.linkedin.com/in/jane-doe"
     ⟨.ok (), none, none, none, none, none, none, none, .ok ()⟩
     ⟨200, ""⟩ ⟨"", none, none, none, none, none, none⟩ (by decide)⟩

/-- A successful dictionary lookup means the pair is among the entries. -/
theorem recLookup_mem {k : String} {r : ProfileRecord} {v : FieldValue}
    (h : recLookup k r = some v) : (k, v) ∈ r := by
  induction r with
  | nil => simp [recLookup] at h
  | cons p rest ih =>
    obtain ⟨k2, v2⟩ := p
    by_cases hk : k2 = k
    · subst hk
      simp [recLookup] at h
      simp [h]
    · simp [recLookup, hk] at h
      exact List.mem_cons_of_mem _ (ih h)

/-- The `xs if xs else [placeholder]` idiom never yields an empty list. -/
theorem listOrPlaceholder_ne_nil (es : List String) (ph : String) :
    listOrPlaceholder es ph ≠ [] := by
  unfold listOrPlaceholder
  split
  · simp
  · rename_i hemp
    cases es
    · simp at hemp
    · simp

/-- The selenium experience value is never the empty list. -/
theorem selExpValue_ne_nil (env : SelEnv) : selExpValue env ≠ [] := by
  unfold selExpValue
  cases env.expSection
  · simp
  · exact listOrPlaceholder_ne_nil _ _

/-- The selenium education value is never the empty list. -/
theorem selEduValue_ne_nil (env : SelEnv) : selEduValue env ≠ [] := by
  unfold selEduValue
  cases env.eduSection
  · simp
  · exact listOrPlaceholder_ne_nil _ _

/-- The selenium skills value is never the empty list. -/
theorem selSkillsValue_ne_nil (env : SelEnv) : selSkillsValue env ≠ [] := by
  unfold selSkillsValue
  cases env.skillsSection
  · simp
  · exact listOrPlaceholder_ne_nil _ _

/-- When the `languages` key is assigned at all, its list is non-empty. -/
theorem selLangValue_ne_nil (env : SelEnv) (ls : List String)
    (h : selLangValue env = some ls) : ls ≠ [] := by
  unfold selLangValue at h
  split at h
  · rename_i items heq
    simp only [] at h
    by_cases hemp : (selLangLoop items).isEmpty = true
    · rw [if_pos hemp] at h
      simp at h
    · rw [if_neg hemp] at h
      rw [Option.some_inj] at h
      subst h
      intro hnil
      rw [hnil] at hemp
      simp at hemp
  · simp at h

/-- The name loop only succeeds with a non-empty stripped text. -/
theorem nameLoop_some_ne_empty (os : List (Option Elem)) (n : String)
    (h : extractNameLoop os = some n) : n ≠ "" := by
  induction os with
  | nil => simp [extractNameLoop] at h
  | cons o rest ih =>
    cases o with
    | none =>
      exact ih (by simpa [extractNameLoop] using h)
    | some e =>
      by_cases hne : pyStrip e.text = ""
      · simp [extractNameLoop, hne] at h
        exact ih h
      · simp [extractNameLoop, hne] at h
        subst h
        exact hne

/-- A record successfully produced by the (shadowing) static field
extraction carries no list-valued field at all, and its `name` value, when
present, is the value the name loop produced. -/
theorem extractFields_none_ok (soup : Soup) (r : ProfileRecord)
    (hex : extractFields soup none = .ok r) :
    (∀ (k : String) (l : List String), recLookup k r ≠ some (.list l)) ∧
    (∀ s : String, recLookup "name" r = some (.str s) →
      extractNameLoop (nameCandidates soup) = some s) := by
  rcases hn : extractNameLoop (nameCandidates soup) with _ | n <;>
    rcases hh : soup.selectHeadline with _ | e1 <;>
    rcases hab : soup.selectAbout with _ | e2 <;>
    simp only [extractFields, hn, hh, hab] at hex <;>
    simp at hex
  all_goals subst hex
  all_goals refine ⟨fun k l h => absurd (recLookup_mem h) (by simp), fun s h => ?_⟩
  all_goals have hm := recLookup_mem h
  all_goals simp at hm
  all_goals subst hm
  all_goals rfl

set_option maxRecDepth 8192 in
/-- C2: in the experience extraction of the first `extract_profile_data`
(`utils.py` lines 132-150) an item contributes a `"<role> at <company>"`
entry iff it has both a role and a company element (stated as a `filterMap`
characterization), and the item count drops by exactly the number of items
lacking one of the two.  However, the second, shadowing definition — the
one the program runs — dropped the whole experience block: on a page whose
experience section holds an item with both elements, the shadowed
definition returns the experience entry while the effective definition
returns a record with no `experience` key at all. -/
theorem experience_requires_both_but_block_dropped :
    (∀ items : List ExpItem,
      expLoop items = items.filterMap (fun i =>
        match i.role, i.company with
        | some r, some c => some (pyStrip r.text ++ " at " ++ pyStrip c.text)
        | _, _ => none)) ∧
    (∀ items : List ExpItem,
      items.length = (expLoop items).length
        + (items.filter (fun i => !(i.role.isSome && i.company.isSome))).length) ∧
    extract_profile_data_v1 ⟨200, String.mk (List.replicate 1000 'z')⟩
        ⟨"x", some ⟨"Jane Doe"⟩, none, none, none, none,
          some [⟨some ⟨"Engineer"⟩, some ⟨"Acme"⟩⟩]⟩
        ⟨.ok (), none, none, none, none, none, none, none, .ok ()⟩
      = .ok [("name", .str "Jane Doe"), ("experience", .list ["Engineer at Acme"])] ∧
    extract_profile_data ⟨200, String.mk (List.replicate 1000 'z')⟩
        ⟨"x", some ⟨"Jane Doe"⟩, none, none, none, none,
          some [⟨some ⟨"Engineer"⟩, some ⟨"Acme"⟩⟩]⟩
        ⟨.ok (), none, none, none, none, none, none, none, .ok ()⟩
      = .ok [("name", .str "Jane Doe")] ∧
    recLookup "experience" [("name", FieldValue.str "Jane Doe")] = none := by
  refine ⟨?_, ?_, rfl, rfl, rfl⟩
  · intro items
    induction items with
    | nil => rfl
    | cons i rest ih =>
      obtain ⟨role, company⟩ := i
      cases role <;> cases company <;> simp [expLoop, List.filterMap_cons, ih]
  · intro items
    induction items with
    | nil => rfl
    | cons i rest ih =>
      obtain ⟨role, company⟩ := i
      cases role <;> cases company <;>
        simp [expLoop, List.filter_cons, ih] <;> omega

set_option maxRecDepth 8192 in
/-- C9 counterexample: a gate-passing page whose compound headline selector
matches an element of whitespace-only text yields a record whose `headline`
value is the EMPTY string — a present field need not be non-empty. -/
theorem empty_field_value_cex :
    extract_profile_data ⟨200, String.mk (List.replicate 1000 'z')⟩
        ⟨" ", none, none, none, some ⟨"  "⟩, none, none⟩
        ⟨.ok (), none, none, none, none, none, none, none, .ok ()⟩
      = .ok [("headline", .str "")] ∧
    recLookup "headline" [("headline", FieldValue.str "")] = some (.str "") :=
  ⟨rfl, rfl⟩

/-- C9 (amended): every list-valued field present in a record returned by
either extractor is a non-empty list, and the static extractor's `name`
field (off the anti-bot route) is non-empty when present; other
string-valued fields carry no such guarantee (the static path in fact
produces no list-valued field at all, its experience block having been
dropped by the shadowing definition). -/
theorem list_values_nonempty_static_name_nonempty :
    (∀ (env : SelEnv) (k : String) (l : List String),
      recLookup k (get_profile_data_with_selenium env) = some (.list l) → l ≠ []) ∧
    (∀ (resp : Response) (soup : Soup) (senv : SelEnv) (r : ProfileRecord),
      resp.statusCode ≠ 999 → extract_profile_data resp soup senv = .ok r →
      (∀ (k : String) (l : List String), recLookup k r ≠ some (.list l)) ∧
      (∀ s : String, recLookup "name" r = some (.str s) → s ≠ "")) := by
  constructor
  · intro env k l h
    have hm := recLookup_mem h
    cases hl : env.launch with
    | error el =>
      have hg : get_profile_data_with_selenium env = degradedRecord el := by
        unfold get_profile_data_with_selenium
        rw [hl]
      rw [hg] at hm
      unfold degradedRecord at hm
      simp at hm
      rcases hm with ⟨-, rfl⟩ | ⟨-, rfl⟩ | ⟨-, rfl⟩ <;> simp
    | ok u =>
      cases hscr : env.screenshot with
      | error es =>
        have hg : get_profile_data_with_selenium env = degradedRecord es := by
          unfold get_profile_data_with_selenium
          rw [hl, hscr]
        rw [hg] at hm
        unfold degradedRecord at hm
        simp at hm
        rcases hm with ⟨-, rfl⟩ | ⟨-, rfl⟩ | ⟨-, rfl⟩ <;> simp
      | ok u2 =>
        have hg : get_profile_data_with_selenium env = seleniumRecord env := by
          unfold get_profile_data_with_selenium
          rw [hl, hscr]
        rw [hg] at hm
        unfold seleniumRecord at hm
        rcases hlv : selLangValue env with _ | ls
        · rw [hlv] at hm
          simp at hm
          rcases hm with ⟨-, rfl⟩ | ⟨-, rfl⟩ | ⟨-, rfl⟩
          exacts [selExpValue_ne_nil env, selEduValue_ne_nil env, selSkillsValue_ne_nil env]
        · rw [hlv] at hm
          simp at hm
          rcases hm with ⟨-, rfl⟩ | ⟨-, rfl⟩ | ⟨-, rfl⟩ | ⟨-, rfl⟩
          exacts [selExpValue_ne_nil env, selEduValue_ne_nil env, selSkillsValue_ne_nil env,
            selLangValue_ne_nil env _ hlv]
  · intro resp soup senv r h999 hex
    unfold extract_profile_data extractGates at hex
    rw [if_neg h999] at hex
    by_cases h4 : 400 ≤ resp.statusCode ∧ resp.statusCode < 600
    · rw [if_pos h4] at hex
      simp at hex
    rw [if_neg h4] at hex
    by_cases hshort : resp.text.length < 1000
    · rw [if_pos hshort] at hex
      simp at hex
    rw [if_neg hshort] at hex
    rcases hfi : findIndicator soup with _ | ind <;> rw [hfi] at hex
    · have hef := extractFields_none_ok soup r hex
      exact ⟨hef.1, fun s hs => nameLoop_some_ne_empty _ _ (hef.2 s hs)⟩
    · simp at hex

set_option maxRecDepth 8192 in
/-- Witness for the amended C9: the selenium record of a concrete failing
environment has non-empty `skills`, and a concrete static record's `name`
is non-empty. -/
theorem list_values_nonempty_static_name_nonempty_witness :
    (∀ l, recLookup "skills" (get_profile_data_with_selenium
        ⟨.error "boom", none, none, none, none, none, none, none, .ok ()⟩)
      = some (.list l) → l ≠ []) ∧
    (∀ s, recLookup "name" [("name", FieldValue.str "Jane Doe")]
      = some (.str s) → s ≠ "") :=
  ⟨fun l h => list_values_nonempty_static_name_nonempty.1
      ⟨.error "boom", none, none, none, none, none, none, none, .ok ()⟩ "skills" l h,
   fun s h => (list_values_nonempty_static_name_nonempty.2
      ⟨200, String.mk (List.replicate 1000 'z')⟩
      ⟨"x", some ⟨"Jane Doe"⟩, none, none, none, none, none⟩
      ⟨.ok (), none, none, none, none, none, none, none, .ok ()⟩
      [("name", FieldValue.str "Jane Doe")]
      (by decide) rfl).2 s h⟩

/-- Consuming a literal succeeds exactly on inputs that start with it. -/
theorem stripLit_some_iff (p cs r : List Char) :
    stripLit p cs = some r ↔ cs = p ++ r := by
  induction p generalizing cs with
  | nil => simp [stripLit]
  | cons x ps ih =>
    cases cs with
    | nil => simp [stripLit]
    | cons c cs2 =>
      by_cases hx : c = x
      · subst hx
        simp [stripLit, ih]
      · simp [stripLit, hx, Ne.symm hx]

/-- A failed literal match cannot be repaired by appending a newline, as
long as the literal contains no newline. -/
theorem stripLit_none_append (p cs : List Char) (hnl : '\n' ∉ p)
    (h : stripLit p cs = none) : stripLit p (cs ++ ['\n']) = none := by
  induction p generalizing cs with
  | nil => simp [stripLit] at h
  | cons x ps ih =>
    cases cs with
    | nil =>
      have hx : ¬ ('\n' = x) := fun he => hnl (he ▸ List.mem_cons_self x ps)
      simp [stripLit, hx]
    | cons c cs2 =>
      by_cases hc : c = x
      · subst hc
        simp only [stripLit, if_pos rfl] at h ⊢
        exact ih cs2 (fun hm => hnl (List.mem_cons_of_mem _ hm)) h
      · simp [stripLit, hc]

/-- Dropping the slug run commutes with appending a final newline, since a
newline is not a slug character. -/
theorem dropSlug_append_nl (cs : List Char) :
    dropSlug (cs ++ ['\n']) = dropSlug cs ++ ['\n'] := by
  induction cs with
  | nil => rfl
  | cons c cs2 ih =>
    by_cases hc : slugChar c = true
    · simp [dropSlug, hc, ih]
    · simp [dropSlug, hc]

/-- The slug run and its complement recompose the input. -/
theorem takeSlug_append_dropSlug (cs : List Char) :
    takeSlug cs ++ dropSlug cs = cs := by
  induction cs with
  | nil => rfl
  | cons c cs2 ih =>
    by_cases hc : slugChar c = true
    · simp [takeSlug, dropSlug, hc, ih]
    · simp [takeSlug, dropSlug, hc]

/-- `dropSlug` is the identity on lists that do not start with a slug
character. -/
theorem dropSlug_no_slug_head (X : List Char)
    (hX : ∀ c cs2, X = c :: cs2 → slugChar c = false) : dropSlug X = X := by
  cases X with
  | nil => rfl
  | cons c cs2 => simp [dropSlug, hX c cs2 rfl]

/-- `dropSlug` erases a prefixed slug run entirely. -/
theorem dropSlug_takeSlug_append (cs X : List Char)
    (hX : ∀ c cs2, X = c :: cs2 → slugChar c = false) :
    dropSlug (takeSlug cs ++ X) = X := by
  induction cs with
  | nil => simpa [takeSlug] using dropSlug_no_slug_head X hX
  | cons c cs2 ih =>
    by_cases hc : slugChar c = true
    · simp [takeSlug, hc, dropSlug, ih]
    · simpa [takeSlug, hc] using dropSlug_no_slug_head X hX

/-- The slug-and-slash tail matches with remainder `"\n"` on the extended
input exactly when it matches the original input completely. -/
theorem matchTail_append_nl (t : List Char) :
    matchTail (t ++ ['\n']) = some ['\n'] ↔ matchTail t = some [] := by
  cases t with
  | nil => decide
  | cons c rest =>
    by_cases hc : slugChar c = true
    · simp only [List.cons_append, matchTail, hc, if_true]
      rw [dropSlug_append_nl]
      rcases hd : dropSlug rest with _ | ⟨c2, r2⟩
      · simp [afterSlash]
      · by_cases h2 : c2 = '/'
        · subst h2
          simp [afterSlash]
        · simp [afterSlash, h2]
    · simp [matchTail, hc]

/-- A successful tail match only consumes a prefix. -/
theorem matchTail_suffix (t r : List Char) (h : matchTail t = some r) :
    ∃ p, t = p ++ r := by
  cases t with
  | nil => simp [matchTail] at h
  | cons c rest =>
    by_cases hc : slugChar c = true
    · simp only [matchTail, hc, if_true, Option.some_inj] at h
      rcases hd : dropSlug rest with _ | ⟨c2, r2⟩
      · rw [hd] at h
        simp [afterSlash] at h
        subst h
        exact ⟨c :: rest, by simp⟩
      · rw [hd] at h
        by_cases h2 : c2 = '/'
        · subst h2
          simp [afterSlash] at h
          subst h
          refine ⟨c :: takeSlug rest ++ ['/'], ?_⟩
          have hts := takeSlug_append_dropSlug rest
          rw [hd] at hts
          calc c :: rest = c :: (takeSlug rest ++ '/' :: r2) := by rw [hts]
          _ = (c :: takeSlug rest ++ ['/']) ++ r2 := by simp
        · simp [afterSlash, h2] at h
          subst h
          refine ⟨c :: takeSlug rest, ?_⟩
          have hts := takeSlug_append_dropSlug rest
          rw [hd] at hts
          calc c :: rest = c :: (takeSlug rest ++ c2 :: r2) := by rw [hts]
          _ = (c :: takeSlug rest) ++ c2 :: r2 := by simp
    · simp [matchTail, hc] at h

/-- The optional `s` commutes with appending a final newline. -/
theorem sBranch_append_nl (cs : List Char) :
    sBranch (cs ++ ['\n']) = sBranch cs ++ ['\n'] := by
  cases cs with
  | nil => rfl
  | cons c t =>
    by_cases hc : c = 's'
    · subst hc
      simp [sBranch]
    · simp [sBranch, hc]

/-- The optional `s` consumes a prefix. -/
theorem sBranch_suffix (cs : List Char) : ∃ p, cs = p ++ sBranch cs := by
  cases cs with
  | nil => exact ⟨[], rfl⟩
  | cons c t =>
    by_cases hc : c = 's'
    · subst hc
      exact ⟨['s'], by simp [sBranch]⟩
    · exact ⟨[], by simp [sBranch, hc]⟩

/-- The optional `www.` commutes with appending a final newline. -/
theorem wwwBranch_append_nl (cs : List Char) :
    wwwBranch (cs ++ ['\n']) = wwwBranch cs ++ ['\n'] := by
  unfold wwwBranch
  rcases h : stripLit "www.".data cs with _ | r
  · rw [stripLit_none_append _ _ (by decide) h]
  · rw [(stripLit_some_iff _ _ _).2
      (by rw [(stripLit_some_iff _ _ _).1 h, List.append_assoc])]

/-- The optional `www.` consumes a prefix. -/
theorem wwwBranch_suffix (cs : List Char) : ∃ p, cs = p ++ wwwBranch cs := by
  unfold wwwBranch
  rcases h : stripLit "www.".data cs with _ | r
  · exact ⟨[], rfl⟩
  · exact ⟨"www.".data, (stripLit_some_iff _ _ _).1 h⟩

/-- The core URL pattern matches the newline-extended input with remainder
`"\n"` exactly when it matches the original input completely: this is the
gap Python's `$` anchor opens between the implemented validator and the
spec's both-ends anchoring. -/
theorem matchLinkedinCore_append_nl (cs : List Char) :
    matchLinkedinCore (cs ++ ['\n']) = some ['\n'] ↔ matchLinkedinCore cs = some [] := by
  unfold matchLinkedinCore
  rcases h1 : stripLit "http".data cs with _ | cs1
  · rw [stripLit_none_append _ _ (by decide) h1]
    simp
  · rw [(stripLit_some_iff _ _ _).2
      (by rw [(stripLit_some_iff _ _ _).1 h1, List.append_assoc])]
    simp only [Option.some_bind]
    rw [sBranch_append_nl]
    rcases h3 : stripLit "://".data (sBranch cs1) with _ | cs3
    · rw [stripLit_none_append _ _ (by decide) h3]
      simp
    · rw [(stripLit_some_iff _ _ _).2
        (by rw [(stripLit_some_iff _ _ _).1 h3, List.append_assoc])]
      simp only [Option.some_bind]
      rw [wwwBranch_append_nl]
      rcases h5 : stripLit "linkedin.com/in/".data (wwwBranch cs3) with _ | cs5
      · rw [stripLit_none_append _ _ (by decide) h5]
        simp
      · rw [(stripLit_some_iff _ _ _).2
          (by rw [(stripLit_some_iff _ _ _).1 h5, List.append_assoc])]
        simp only [Option.some_bind]
        exact matchTail_append_nl cs5

/-- A successful core match only consumes a prefix: the remainder is a
suffix of the input. -/
theorem matchLinkedinCore_suffix (cs r : List Char)
    (h : matchLinkedinCore cs = some r) : ∃ p, cs = p ++ r := by
  unfold matchLinkedinCore at h
  rcases h1 : stripLit "http".data cs with _ | cs1 <;> rw [h1] at h
  · simp at h
  · simp only [Option.some_bind] at h
    rcases h3 : stripLit "://".data (sBranch cs1) with _ | cs3 <;> rw [h3] at h
    · simp at h
    · simp only [Option.some_bind] at h
      rcases h5 : stripLit "linkedin.com/in/".data (wwwBranch cs3) with _ | cs5 <;>
        rw [h5] at h
      · simp at h
      · simp only [Option.some_bind] at h
        obtain ⟨pt, hpt⟩ := matchTail_suffix cs5 r h
        obtain ⟨ps, hps⟩ := sBranch_suffix cs1
        obtain ⟨pw, hpw⟩ := wwwBranch_suffix cs3
        have e1 := (stripLit_some_iff _ _ _).1 h1
        have e3 := (stripLit_some_iff _ _ _).1 h3
        have e5 := (stripLit_some_iff _ _ _).1 h5
        refine ⟨"http".data ++ ps ++ "://".data ++ pw ++ "linkedin.com/in/".data ++ pt, ?_⟩
        rw [e1, hps, e3, hpw, e5, hpt]
        simp [List.append_assoc]

/-- The spec-worded (both-ends-anchored) pattern holds iff the core match
leaves nothing. -/
theorem matchesSpec_iff (s : String) :
    matchesSpecUrlPattern s = true ↔ matchLinkedinCore s.data = some [] := by
  unfold matchesSpecUrlPattern
  rcases h : matchLinkedinCore s.data with _ | r
  · simp
  · simp [List.isEmpty_iff]

/-- The implemented validator holds iff the core match leaves nothing or a
single trailing newline (Python's `$`). -/
theorem is_valid_iff (s : String) :
    is_valid_linkedin_url s = true ↔
      (matchLinkedinCore s.data = some [] ∨ matchLinkedinCore s.data = some ['\n']) := by
  unfold is_valid_linkedin_url
  rcases h : matchLinkedinCore s.data with _ | r
  · simp
  · simp [List.isEmpty_iff]

/-- C3 counterexample: the claim's anchored-at-both-ends reading is false of
the code — a valid profile URL followed by a single newline character is
accepted by `is_valid_linkedin_url` although it does not match the pattern
anchored at both ends (Python's `$` also matches just before a trailing
newline). -/
theorem url_trailing_newline_cex :
    is_valid_linkedin_url "https://www.linkedin.com/in/jane-doe\n" = true ∧
    matchesSpecUrlPattern "https://www.linkedin.com/in/jane-doe\n" = false :=
  ⟨rfl, rfl⟩

/-- C3 (amended): every string failing validation makes the orchestrator
fail immediately with the invalid-URL error and an empty attempt trace (no
browser attempt, no fetch); and the validator accepts exactly the strings
matching `(http|https)://(www.)?linkedin.com/in/<slug>(/)?` anchored at the
start and anchored at the end UP TO one optional trailing newline — i.e.
the strictly anchored matches plus those same matches followed by a single
`"\n"`. -/
theorem url_validation_characterization :
    (∀ (url : String) (senv : SelEnv) (resp : Response) (soup : Soup),
      is_valid_linkedin_url url = false →
      scrape_linkedin_profile url senv resp soup
        = (.error "Invalid LinkedIn profile URL", [])) ∧
    (∀ s : String, is_valid_linkedin_url s = true ↔
      (matchesSpecUrlPattern s = true ∨
        ∃ t : String, s = t ++ "\n" ∧ matchesSpecUrlPattern t = true)) := by
  constructor
  · intro url senv resp soup h
    unfold scrape_linkedin_profile scrape_orchestrate
    rw [if_pos h]
  · intro s
    rw [is_valid_iff s]
    constructor
    · rintro (h0 | h1)
      · exact Or.inl ((matchesSpec_iff s).2 h0)
      · obtain ⟨p, hp⟩ := matchLinkedinCore_suffix s.data ['\n'] h1
        refine Or.inr ⟨String.mk p, ?_, ?_⟩
        · show s = String.mk (p ++ "\n".data)
          rw [show ("\n".data : List Char) = ['\n'] from rfl, ← hp]
        · refine (matchesSpec_iff _).2 ?_
          refine (matchLinkedinCore_append_nl p).1 ?_
          rw [← hp]
          exact h1
    · rintro (h0 | ⟨t, ht, hspec⟩)
      · exact Or.inl ((matchesSpec_iff s).1 h0)
      · right
        have hd : s.data = t.data ++ ['\n'] := by rw [ht]; rfl
        rw [hd]
        exact (matchLinkedinCore_append_nl t.data).2 ((matchesSpec_iff t).1 hspec)

/-- Witness for the amended C3: a concrete invalid string fails immediately
with no attempts, and the characterization instantiated at a concrete URL. -/
theorem url_validation_characterization_witness :
    scrape_linkedin_profile "not-a-url"
        ⟨.ok (), none, none, none, none, none, none, none, .ok ()⟩
        ⟨200, ""⟩ ⟨"", none, none, none, none, none, none⟩
      = (.error "Invalid LinkedIn profile URL", []) ∧
    (is_valid_linkedin_url "https://www.linkedin.com/in/jane-doe" = true ↔
      (matchesSpecUrlPattern "https://www.linkedin.com/in/jane-doe" = true ∨
        ∃ t : String, "https://www.linkedin.com/in/jane-doe" = t ++ "\n" ∧
          matchesSpecUrlPattern t = true)) :=
  ⟨url_validation_characterization.1 "not-a-url"
      ⟨.ok (), none, none, none, none, none, none, none, .ok ()⟩
      ⟨200, ""⟩ ⟨"", none, none, none, none, none, none⟩ rfl,
   url_validation_characterization.2 "https://www.linkedin.com/in/jane-doe"⟩
